import Mathlib

/-!
Verification development for the configuration resolution engine of
`lazymc` (`src/config.rs`).  The Rust code is shallowly embedded: Rust
strings become lists of unicode scalar values, the process environment
becomes an explicit partial map from variable names to values, the
fatal-exit paths (`quit_error_msg`) become the `Except.error` branch,
and every accessor is translated function-by-function from the source.
-/

deriving instance DecidableEq for Except

namespace Lazymc

/-- Rust strings are modelled as lists of unicode scalar values. -/
abbrev Str := List Char

/-- Embed a Lean string literal as a modelled Rust string. -/
def str (s : String) : Str := s.data

/-- Rust's `str::replace` specialised to a two-character pattern `a b`
(the only shape of pattern `process_escape_sequences` uses): scan left to
right, replace each non-overlapping occurrence of `a b` by `rep`, and
never re-examine replacement output. -/
def replace2 (a b : Char) (rep : Str) : Str → Str
  | [] => []
  | [c] => [c]
  | c :: d :: cs =>
    if c = a ∧ d = b then rep ++ replace2 a b rep cs
    else c :: replace2 a b rep (d :: cs)

/-- First replacement of `process_escape_sequences`: `\n` → newline. -/
def esc_n (s : Str) : Str := replace2 '\\' 'n' ['\n'] s

/-- Second replacement of `process_escape_sequences`: `\r` → carriage return. -/
def esc_r (s : Str) : Str := replace2 '\\' 'r' ['\r'] s

/-- Third replacement of `process_escape_sequences`: `\t` → tab. -/
def esc_t (s : Str) : Str := replace2 '\\' 't' ['\t'] s

/-- Fourth replacement of `process_escape_sequences`: `\\` → single backslash. -/
def esc_bs (s : Str) : Str := replace2 '\\' '\\' ['\\'] s

/-- `process_escape_sequences` (config.rs:61-67): the four chained
`.replace` calls, in source order. -/
def process_escape_sequences (s : Str) : Str :=
  esc_bs (esc_t (esc_r (esc_n s)))

/-- Rust `str::split(',')` on the character model: splitting an empty
string yields one empty piece, like Rust's `split`. -/
def splitOnChar (sep : Char) : Str → List Str
  | [] => [[]]
  | c :: cs =>
    if c = sep then [] :: splitOnChar sep cs
    else
      match splitOnChar sep cs with
      | [] => [[c]]
      | h :: t => (c :: h) :: t

/-- Rust `str::trim`, modelled for ASCII whitespace (the configuration
values the engine reads are ASCII; Rust also strips other Unicode
whitespace, which no claim exercises). -/
def rustTrim (s : Str) : Str :=
  ((s.dropWhile Char.isWhitespace).reverse.dropWhile Char.isWhitespace).reverse

/-- Rust `str::to_lowercase`, modelled for ASCII letters (Rust also
lowercases other Unicode letters; the keyword sets compared against are
ASCII). -/
def rustToLower (s : Str) : Str := s.map Char.toLower

/-- Numeric value of a decimal or hexadecimal digit character. -/
def digitVal (c : Char) : Nat :=
  if c.isDigit then c.toNat - 48
  else if 'a' ≤ c ∧ c ≤ 'f' then c.toNat - 87
  else if 'A' ≤ c ∧ c ≤ 'F' then c.toNat - 55
  else 0

/-- Accumulate a digit list into a number in the given radix. -/
def natFromDigits (radix : Nat) (ds : Str) : Nat :=
  ds.foldl (fun n c => n * radix + digitVal c) 0

/-- Rust's `FromStr` for unsigned integers (`u32`/`u16` in the source):
an optional leading `+`, then one or more decimal digits, no other
characters, value within the type's bound; anything else is a parse
error. -/
def parseUInt (bound : Nat) (s : Str) : Option Nat :=
  let digits := match s with
    | '+' :: rest => rest
    | other => other
  if digits.isEmpty then none
  else if digits.all Char.isDigit then
    let n := natFromDigits 10 digits
    if n ≤ bound then some n else none
  else none

/-- Does the modelled string contain `pat` as a contiguous run?  Used to
state that a fatal error message names the offending variable. -/
def startsList (pat : Str) : Str → Bool
  | s => match pat, s with
    | [], _ => true
    | _ :: _, [] => false
    | p :: ps, c :: cs => p = c && startsList ps cs

/-- Substring occurrence test on the character model. -/
def hasSub (pat : Str) : Str → Bool
  | [] => pat.isEmpty
  | c :: cs => startsList pat (c :: cs) || hasSub pat cs

/-! ### The standard library socket address parser

`get_env_socket_addr` (config.rs:70-75) calls `str::parse::<SocketAddr>`.
The definitions below model the Rust standard library's parser
(`core::net::parser`): a `SocketAddrV4` is a literal dotted-quad IPv4
address, a colon and a decimal port; a `SocketAddrV6` is a bracketed
literal IPv6 address with optional numeric scope id, a colon and a port.
No hostname resolution of any kind is present in this parser.
-/

/-- An IP address: four octets, or eight 16-bit IPv6 groups plus scope id. -/
inductive IpAddr
  | v4 (a b c d : Nat)
  | v6 (groups : List Nat) (scope : Nat)
deriving DecidableEq, Repr

/-- A resolved socket address: IP plus port. -/
structure SocketAddr where
  ip : IpAddr
  port : Nat
deriving DecidableEq, Repr

/-- Consume one expected character. -/
def expectChar (c : Char) : Str → Option Str
  | x :: xs => if x = c then some xs else none
  | [] => none

/-- Is `c` a digit of the given radix (10 or 16)? -/
def isRadixDigit (radix : Nat) (c : Char) : Bool :=
  if radix = 16 then c.isDigit || ('a' ≤ c && c ≤ 'f') || ('A' ≤ c && c ≤ 'F')
  else c.isDigit

/-- The standard library's `read_number`: read all consecutive digits of
the radix; fail on no digits, on a forbidden leading zero, or on more
digits than allowed.  The value bound of the target integer type is
checked by the caller. -/
def readNum (radix : Nat) (maxDigits : Option Nat) (allowZeroFirst : Bool) (s : Str) :
    Option (Nat × Str) :=
  let digits := s.takeWhile (isRadixDigit radix)
  let rest := s.dropWhile (isRadixDigit radix)
  if digits.isEmpty then none
  else if !allowZeroFirst && decide (1 < digits.length) && digits.headD 'x' = '0' then none
  else
    match maxDigits with
    | some m => if digits.length ≤ m then some (natFromDigits radix digits, rest) else none
    | none => some (natFromDigits radix digits, rest)

/-- The standard library's `read_ipv4_addr`: four decimal octets of at
most three digits each, no leading zeros, each at most 255. -/
def readIpv4 (s : Str) : Option ((Nat × Nat × Nat × Nat) × Str) := do
  let (a, s) ← readNum 10 (some 3) false s
  guard (a ≤ 255)
  let s ← expectChar '.' s
  let (b, s) ← readNum 10 (some 3) false s
  guard (b ≤ 255)
  let s ← expectChar '.' s
  let (c, s) ← readNum 10 (some 3) false s
  guard (c ≤ 255)
  let s ← expectChar '.' s
  let (d, s) ← readNum 10 (some 3) false s
  guard (d ≤ 255)
  pure ((a, b, c, d), s)

/-- The standard library's `read_separator`: every group after the first
is preceded by a colon. -/
def readSep {α : Type} (i : Nat) (inner : Str → Option (α × Str)) (s : Str) :
    Option (α × Str) :=
  if i = 0 then inner s
  else match expectChar ':' s with
    | some s' => inner s'
    | none => none

/-- The standard library's `read_groups` loop for IPv6: read up to
`remaining` colon-separated 16-bit hexadecimal groups starting at group
index `i`; when at least two slots remain, first try a trailing embedded
IPv4 address, which fills two groups and ends the read.  Returns the
groups read, whether an embedded IPv4 tail was used, and the rest of the
input. -/
def readGroups (i : Nat) : Nat → Str → (List Nat × Bool × Str)
  | 0, s => ([], false, s)
  | Nat.succ r, s =>
    match (if 1 ≤ r then readSep i readIpv4 s else none) with
    | some ((a, b, c, d), s') => ([a * 256 + b, c * 256 + d], true, s')
    | none =>
      match readSep i (readNum 16 (some 4) true) s with
      | some (g, s') =>
        let (gs, usedV4, s'') := readGroups (i + 1) r s'
        (g :: gs, usedV4, s'')
      | none => ([], false, s)

/-- The standard library's `read_ipv6_addr`: up to eight groups, a `::`
marking a run of zero groups when fewer than eight appear before it. -/
def readIpv6 (s : Str) : Option (List Nat × Str) :=
  let (head, headV4, s1) := readGroups 0 8 s
  if head.length = 8 then some (head, s1)
  else if headV4 then none
  else
    match expectChar ':' s1 with
    | none => none
    | some s2 =>
      match expectChar ':' s2 with
      | none => none
      | some s3 =>
        let limit := 8 - (head.length + 1)
        let (tail, _, s4) := readGroups 0 limit s3
        some (head ++ List.replicate (8 - head.length - tail.length) 0 ++ tail, s4)

/-- The standard library's `SocketAddrV4` reader: IPv4 address, colon,
decimal port fitting `u16` (leading zeros allowed for the port). -/
def readSocketV4 (s : Str) : Option (SocketAddr × Str) := do
  let ((a, b, c, d), s) ← readIpv4 s
  let s ← expectChar ':' s
  let (port, s) ← readNum 10 none true s
  guard (port ≤ 65535)
  pure (⟨IpAddr.v4 a b c d, port⟩, s)

/-- The standard library's `SocketAddrV6` reader: bracketed IPv6 address
with optional `%scope` (a decimal `u32`), colon, decimal port. -/
def readSocketV6 (s : Str) : Option (SocketAddr × Str) := do
  let s ← expectChar '[' s
  let (groups, s) ← readIpv6 s
  let (scope, s) ←
    match expectChar '%' s with
    | some s' => do
      let (n, s'') ← readNum 10 none true s'
      guard (n ≤ 4294967295)
      pure (n, s'')
    | none => pure (0, s)
  let s ← expectChar ']' s
  let s ← expectChar ':' s
  let (port, s) ← readNum 10 none true s
  guard (port ≤ 65535)
  pure (⟨IpAddr.v6 groups scope, port⟩, s)

/-- Rust's `SocketAddr::from_str`: try the V4 form, else the V6 form,
and require the whole input to be consumed.  This is a pure literal
parser: a hostname such as `example.com:25565` is simply a parse
failure. -/
def parseSocketAddr (s : Str) : Option SocketAddr :=
  match readSocketV4 s <|> readSocketV6 s with
  | some (a, []) => some a
  | _ => none

/-! ### Paths

`PathBuf` is modelled as an absolute flag plus a component list, enough
to express `Path::parent` (none for the root or the empty path) and
`Path::join` (an absolute right operand replaces the left operand).
-/

/-- A filesystem path: absolute flag plus components. -/
structure RPath where
  absolute : Bool
  components : List Str
deriving DecidableEq, Repr

/-- `Path::parent`: strip the last component; `none` for the root path
and the empty path. -/
def RPath.parent (p : RPath) : Option RPath :=
  match p.components with
  | [] => none
  | _ :: _ => some ⟨p.absolute, p.components.dropLast⟩

/-- `Path::join`: an absolute right operand replaces the left operand,
otherwise components are appended. -/
def RPath.join (p q : RPath) : RPath :=
  if q.absolute then q else ⟨p.absolute, p.components ++ q.components⟩

/-- `PathBuf::from` on a textual path: split on `/`, dropping empty
segments produced by a leading or doubled separator. -/
def RPath.ofStr (s : Str) : RPath :=
  match s with
  | '/' :: rest => ⟨true, (splitOnChar '/' rest).filter (fun c => !c.isEmpty)⟩
  | other => ⟨false, (splitOnChar '/' other).filter (fun c => !c.isEmpty)⟩

/-! ### Environment accessors (config.rs:54-111)

The process environment is an explicit map; `env::var(key).ok()` is the
lookup itself (a variable that is unset, or whose value is not valid
unicode, is `none`).
-/

/-- The process environment. -/
abbrev Env := String → Option Str

/-- `get_env_string` (config.rs:55-58): the raw value, or else the
supplied default, with escape sequences processed — note that the
default also flows through `process_escape_sequences`. -/
def get_env_string (env : Env) (key : String) (default : Option Str) : Option Str :=
  match env key with
  | some v => some (process_escape_sequences v)
  | none =>
    match default with
    | some d => some (process_escape_sequences d)
    | none => none

/-- `get_env_socket_addr` (config.rs:70-75): parse the variable as a
literal socket address, else parse the hard-coded default.  The source
unwraps the default's parse (a panic on failure); every call site passes
a valid literal, so the `getD` fallback is unreachable and exists only
to keep the model total. -/
def get_env_socket_addr (env : Env) (key : String) (default : Str) : SocketAddr :=
  match (env key).bind parseSocketAddr with
  | some a => a
  | none => (parseSocketAddr default).getD ⟨IpAddr.v4 0 0 0 0, 0⟩

/-- `get_env_u32` (config.rs:78-83). -/
def get_env_u32 (env : Env) (key : String) (default : Nat) : Nat :=
  match (env key).bind (parseUInt 4294967295) with
  | some n => n
  | none => default

/-- `get_env_u16` (config.rs:86-91). -/
def get_env_u16 (env : Env) (key : String) (default : Nat) : Nat :=
  match (env key).bind (parseUInt 65535) with
  | some n => n
  | none => default

/-- The `match` inside `get_env_bool` (config.rs:97-101): Rust's `match`
on string literals is a chain of equality tests against the lowercased
value. -/
def parseBoolWord (s : Str) (default : Bool) : Bool :=
  let l := rustToLower s
  if l = str "true" ∨ l = str "1" ∨ l = str "yes" ∨ l = str "on" then true
  else if l = str "false" ∨ l = str "0" ∨ l = str "no" ∨ l = str "off" then false
  else default

/-- `get_env_bool` (config.rs:94-103). -/
def get_env_bool (env : Env) (key : String) (default : Bool) : Bool :=
  match env key with
  | some s => parseBoolWord s default
  | none => default

/-- `get_env_vec_string` (config.rs:106-111): split the value on commas
and trim each element; an unset variable yields the default list
unchanged. -/
def get_env_vec_string (env : Env) (key : String) (default : List Str) : List Str :=
  match env key with
  | some s => (splitOnChar ',' s).map rustTrim
  | none => default

/-! ### External constants -/

/-- Modelled from the spec: `proto::PROTO_DEFAULT_VERSION`, the protocol
version name hint from the `proto` module that is not part of the
configuration source; its concrete value does not influence any claim. -/
def PROTO_DEFAULT_VERSION : Str := str "1.20.3"

/-- Modelled from the spec: `proto::PROTO_DEFAULT_PROTOCOL`, the
protocol number hint from the `proto` module; its concrete value does
not influence any claim. -/
def PROTO_DEFAULT_PROTOCOL : Nat := 765

/-- The `cfg!(windows)` compile-time flag: this development models the
non-Windows build of the containerised service. -/
def cfg_windows : Bool := false

/-- `CONFIG_VERSION` (config.rs:19): the minimum expected configuration
schema version. -/
def CONFIG_VERSION : Str := str "0.2.8"

/-! ### Version compatibility check -/

/-- Dot-separated all-digit version components, numerically valued;
`none` when any component is empty or non-numeric. -/
def parseVersion (s : Str) : Option (List Nat) :=
  let parts := splitOnChar '.' s
  if parts.all (fun p => !p.isEmpty && p.all Char.isDigit) then
    some (parts.map (natFromDigits 10))
  else none

/-- Ordinal comparison of version component lists: componentwise
numeric, a strict prefix compares as older. -/
def versionLt : List Nat → List Nat → Bool
  | [], [] => false
  | [], _ :: _ => true
  | _ :: _, [] => false
  | x :: xs, y :: ys =>
    if x < y then true
    else if x = y then versionLt xs ys
    else false

/-- Modelled from the spec: the external `version_compare` crate's
`compare_to(version, CONFIG_VERSION, Cmp::Ge)` (config.rs:167), which is
not part of this repository.  Per the spec, the comparison is ordinal
dotted-numeric, and a string that fails to parse as a version is an
error. -/
def compare_to_ge (v minv : Str) : Except Unit Bool :=
  match parseVersion v, parseVersion minv with
  | some xs, some ys => Except.ok (!versionLt xs ys)
  | _, _ => Except.error ()

/-- The four possible results of the version check in `load_from_file`
(config.rs:165-176); all are warnings or silence, never a failure. -/
inductive VersionCheck
  | warnUnknown
  | warnOlder
  | warnInvalid
  | ok
deriving DecidableEq, Repr

/-- The version-check `match` of `Config::load_from_file`
(config.rs:165-176), extracted as a function of the declared version. -/
def check_config_version (version : Option Str) : VersionCheck :=
  match version with
  | none => VersionCheck.warnUnknown
  | some v =>
    match compare_to_ge v CONFIG_VERSION with
    | Except.ok false => VersionCheck.warnOlder
    | Except.error _ => VersionCheck.warnInvalid
    | Except.ok true => VersionCheck.ok

/-! ### The configuration tree (config.rs:113-746) -/

/-- `Public` (config.rs:218-228). -/
structure Public where
  address : SocketAddr
  version : Str
  protocol : Nat
deriving DecidableEq, Repr

/-- `Server` (config.rs:252-314). -/
structure Server where
  directory : Option RPath
  command : Str
  address : SocketAddr
  freeze_process : Bool
  wake_on_start : Bool
  wake_on_crash : Bool
  probe_on_start : Bool
  forge : Bool
  start_timeout : Nat
  stop_timeout : Nat
  wake_whitelist : Bool
  block_banned_ips : Bool
  drop_banned_ips : Bool
  send_proxy_v2 : Bool
deriving DecidableEq, Repr

/-- `Time` (config.rs:354-361). -/
structure Time where
  sleep_after : Nat
  min_online_time : Nat
deriving DecidableEq, Repr

/-- `Motd` (config.rs:384-396). -/
structure Motd where
  sleeping : Str
  starting : Str
  stopping : Str
  from_server : Bool
deriving DecidableEq, Repr

/-- `Method` (config.rs:429-441): the join-strategy enumeration. -/
inductive Method
  | kick
  | hold
  | forward
  | lobby
deriving DecidableEq, Repr

/-- `Method::from_str` (config.rs:446-454). -/
def Method.from_str (s : Str) : Except Str Method :=
  let l := rustToLower s
  if l = str "kick" then Except.ok Method.kick
  else if l = str "hold" then Except.ok Method.hold
  else if l = str "forward" then Except.ok Method.forward
  else if l = str "lobby" then Except.ok Method.lobby
  else Except.error (str "Unknown join method: " ++ s)

/-- `JoinKick` (config.rs:513-519). -/
structure JoinKick where
  starting : Str
  stopping : Str
deriving DecidableEq, Repr

/-- `JoinHold` (config.rs:546-549). -/
structure JoinHold where
  timeout : Nat
deriving DecidableEq, Repr

/-- `JoinForward` (config.rs:568-576). -/
structure JoinForward where
  address : SocketAddr
  send_proxy_v2 : Bool
deriving DecidableEq, Repr

/-- `JoinLobby` (config.rs:599-608). -/
structure JoinLobby where
  timeout : Nat
  message : Str
  ready_sound : Option Str
deriving DecidableEq, Repr

/-- `Join` (config.rs:460-479). -/
structure Join where
  methods : List Method
  kick : JoinKick
  hold : JoinHold
  forward : JoinForward
  lobby : JoinLobby
deriving DecidableEq, Repr

/-- `Lockout` (config.rs:636-642). -/
structure Lockout where
  enabled : Bool
  message : Str
deriving DecidableEq, Repr

/-- `Rcon` (config.rs:667-682). -/
structure Rcon where
  enabled : Bool
  port : Nat
  password : Str
  randomize_password : Bool
  send_proxy_v2 : Bool
deriving DecidableEq, Repr

/-- `Advanced` (config.rs:711-714). -/
structure Advanced where
  rewrite_server_properties : Bool
deriving DecidableEq, Repr

/-- `ConfigConfig` (config.rs:735-738). -/
structure ConfigConfig where
  version : Option Str
deriving DecidableEq, Repr

/-- `Config` (config.rs:115-156): the root tree, with the provenance
path of a file-sourced load. -/
structure Config where
  path : Option RPath
  public : Public
  server : Server
  time : Time
  motd : Motd
  join : Join
  lockout : Lockout
  rcon : Rcon
  advanced : Advanced
  config : ConfigConfig
deriving DecidableEq, Repr

/-! ### Environment-sourced section builders (config.rs:230-746) -/

/-- `Public::from_env` (config.rs:231-238). -/
def Public.from_env (env : Env) : Public :=
  { address := get_env_socket_addr env "LAZYMC_PUBLIC_ADDRESS" (str "0.0.0.0:25565")
    version := (get_env_string env "LAZYMC_PUBLIC_VERSION" (some PROTO_DEFAULT_VERSION)).getD
      PROTO_DEFAULT_VERSION
    protocol := get_env_u32 env "LAZYMC_PUBLIC_PROTOCOL" PROTO_DEFAULT_PROTOCOL }

/-- `Server::from_env` (config.rs:317-337); the required start command
has already been read by the loader and is passed in unprocessed. -/
def Server.from_env (env : Env) (command : Str) : Server :=
  { directory := (get_env_string env "LAZYMC_SERVER_DIRECTORY" (some (str "."))).map RPath.ofStr
    command := command
    address := get_env_socket_addr env "LAZYMC_SERVER_ADDRESS" (str "127.0.0.1:25566")
    freeze_process := get_env_bool env "LAZYMC_SERVER_FREEZE_PROCESS" true
    wake_on_start := get_env_bool env "LAZYMC_SERVER_WAKE_ON_START" false
    wake_on_crash := get_env_bool env "LAZYMC_SERVER_WAKE_ON_CRASH" false
    probe_on_start := get_env_bool env "LAZYMC_SERVER_PROBE_ON_START" false
    forge := get_env_bool env "LAZYMC_SERVER_FORGE" false
    start_timeout := get_env_u32 env "LAZYMC_SERVER_START_TIMEOUT" 300
    stop_timeout := get_env_u32 env "LAZYMC_SERVER_STOP_TIMEOUT" 150
    wake_whitelist := get_env_bool env "LAZYMC_SERVER_WAKE_WHITELIST" true
    block_banned_ips := get_env_bool env "LAZYMC_SERVER_BLOCK_BANNED_IPS" true
    drop_banned_ips := get_env_bool env "LAZYMC_SERVER_DROP_BANNED_IPS" false
    send_proxy_v2 := get_env_bool env "LAZYMC_SERVER_SEND_PROXY_V2" false }

/-- `Server::server_directory` (config.rs:342-348): relative to the
configuration file's parent directory when the provenance path is known
and has a parent, the stored directory as-is otherwise.  The function is
pure in the tree alone: no filesystem existence check exists. -/
def Server.server_directory (config : Config) : Option RPath :=
  match config.path.bind RPath.parent with
  | some config_dir => config.server.directory.map (fun d => config_dir.join d)
  | none => config.server.directory

/-- `Time::from_env` (config.rs:364-369). -/
def Time.from_env (env : Env) : Time :=
  { sleep_after := get_env_u32 env "LAZYMC_TIME_SLEEP_AFTER" 60
    min_online_time := get_env_u32 env "LAZYMC_TIME_MIN_ONLINE_TIME" 60 }

/-- `Motd::from_env` (config.rs:399-412). -/
def Motd.from_env (env : Env) : Motd :=
  { sleeping := (get_env_string env "LAZYMC_MOTD_SLEEPING"
      (some (str "☠ Server is sleeping\n§2☻ Join to start it up"))).getD []
    starting := (get_env_string env "LAZYMC_MOTD_STARTING"
      (some (str "§2☻ Server is starting...\n§7⌛ Please wait..."))).getD []
    stopping := (get_env_string env "LAZYMC_MOTD_STOPPING"
      (some (str "☠ Server going to sleep...\n⌛ Please wait..."))).getD []
    from_server := get_env_bool env "LAZYMC_MOTD_FROM_SERVER" false }

/-- `JoinKick::from_env` (config.rs:522-531). -/
def JoinKick.from_env (env : Env) : JoinKick :=
  { starting := (get_env_string env "LAZYMC_JOIN_KICK_STARTING"
      (some (str "Server is starting... §c♥§r\n\nThis may take some time.\n\nPlease try to reconnect in a minute."))).getD []
    stopping := (get_env_string env "LAZYMC_JOIN_KICK_STOPPING"
      (some (str "Server is going to sleep... §7☠§r\n\nPlease try to reconnect in a minute to wake it again."))).getD [] }

/-- `JoinHold::from_env` (config.rs:552-556). -/
def JoinHold.from_env (env : Env) : JoinHold :=
  { timeout := get_env_u32 env "LAZYMC_JOIN_HOLD_TIMEOUT" 25 }

/-- `JoinForward::from_env` (config.rs:579-584). -/
def JoinForward.from_env (env : Env) : JoinForward :=
  { address := get_env_socket_addr env "LAZYMC_JOIN_FORWARD_ADDRESS" (str "127.0.0.1:25565")
    send_proxy_v2 := get_env_bool env "LAZYMC_JOIN_FORWARD_SEND_PROXY_V2" false }

/-- `JoinLobby::from_env` (config.rs:611-620). -/
def JoinLobby.from_env (env : Env) : JoinLobby :=
  { timeout := get_env_u32 env "LAZYMC_JOIN_LOBBY_TIMEOUT" (10 * 60)
    message := (get_env_string env "LAZYMC_JOIN_LOBBY_MESSAGE"
      (some (str "§2Server is starting\n§7⌛ Please wait..."))).getD []
    ready_sound := get_env_string env "LAZYMC_JOIN_LOBBY_READY_SOUND"
      (some (str "block.note_block.chime")) }

/-- `Join::from_env` (config.rs:482-495): split the strategy list, parse
each entry, and keep only the entries that parse. -/
def Join.from_env (env : Env) : Join :=
  let methods_str := get_env_vec_string env "LAZYMC_JOIN_METHODS" [str "hold", str "kick"]
  let methods := methods_str.filterMap (fun s => (Method.from_str s).toOption)
  { methods := methods
    kick := JoinKick.from_env env
    hold := JoinHold.from_env env
    forward := JoinForward.from_env env
    lobby := JoinLobby.from_env env }

/-- `Lockout::from_env` (config.rs:645-652). -/
def Lockout.from_env (env : Env) : Lockout :=
  { enabled := get_env_bool env "LAZYMC_LOCKOUT_ENABLED" false
    message := (get_env_string env "LAZYMC_LOCKOUT_MESSAGE"
      (some (str "Server is closed §7☠§r\n\nPlease come back another time."))).getD [] }

/-- `Rcon::from_env` (config.rs:685-693). -/
def Rcon.from_env (env : Env) : Rcon :=
  { enabled := get_env_bool env "LAZYMC_RCON_ENABLED" cfg_windows
    port := get_env_u16 env "LAZYMC_RCON_PORT" 25575
    password := (get_env_string env "LAZYMC_RCON_PASSWORD" (some (str ""))).getD []
    randomize_password := get_env_bool env "LAZYMC_RCON_RANDOMIZE_PASSWORD" true
    send_proxy_v2 := get_env_bool env "LAZYMC_RCON_SEND_PROXY_V2" false }

/-- `Advanced::from_env` (config.rs:717-721). -/
def Advanced.from_env (env : Env) : Advanced :=
  { rewrite_server_properties :=
      get_env_bool env "LAZYMC_ADVANCED_REWRITE_SERVER_PROPERTIES" true }

/-- `ConfigConfig::from_env` (config.rs:741-745). -/
def ConfigConfig.from_env (env : Env) : ConfigConfig :=
  { version := get_env_string env "LAZYMC_CONFIG_VERSION" none }

/-- The fatal-exit path of the loader (`quit_error_msg`): the process
terminates with this message; no configuration value is produced. -/
structure FatalError where
  message : Str
deriving DecidableEq, Repr

/-- `Config::load_from_env` (config.rs:188-212): the required start
command is read straight from the environment — unset is fatal, any
present value (escape-processing not applied, emptiness not checked) is
accepted — then every section is built from the environment. -/
def Config.load_from_env (env : Env) : Except FatalError Config :=
  match env "LAZYMC_SERVER_COMMAND" with
  | none =>
    Except.error ⟨str "Missing required environment variable: LAZYMC_SERVER_COMMAND"⟩
  | some server_command =>
    Except.ok
      { path := none
        public := Public.from_env env
        server := Server.from_env env server_command
        time := Time.from_env env
        motd := Motd.from_env env
        join := Join.from_env env
        lockout := Lockout.from_env env
        rcon := Rcon.from_env env
        advanced := Advanced.from_env env
        config := ConfigConfig.from_env env }

/-! ### Concrete environments and extraction helpers used by the claims -/

/-- The empty environment: every variable unset. -/
def envNone : Env := fun _ => none

/-- An environment with exactly one variable set. -/
def envOnly (k : String) (v : String) : Env :=
  fun q => if q = k then some (str v) else none

/-- The end-to-end environment: only the required start command is set. -/
def env7 : Env := envOnly "LAZYMC_SERVER_COMMAND" "java -jar server.jar"

/-- A minimal viable environment: only the start command, set to `cmd`. -/
def envCmd : Env := envOnly "LAZYMC_SERVER_COMMAND" "cmd"

/-- `envCmd` plus one further variable. -/
def envCmdWith (k : String) (v : String) : Env :=
  fun q => if q = k then some (str v) else envCmd q

/-- Start command plus a join-methods list value. -/
def envJoin (cmd methodsVal : Str) : Env := fun q =>
  if q = "LAZYMC_JOIN_METHODS" then some methodsVal
  else if q = "LAZYMC_SERVER_COMMAND" then some cmd
  else none

/-- Did loading produce a configuration tree (rather than a fatal exit)? -/
def loadedOk : Except FatalError Config → Bool
  | Except.ok _ => true
  | Except.error _ => false

/-- The backend start command of a load result. -/
def commandOf : Except FatalError Config → Option Str
  | Except.ok c => some c.server.command
  | Except.error _ => none

/-- The join-strategy list of a load result. -/
def methodsOf : Except FatalError Config → Option (List Method)
  | Except.ok c => some c.join.methods
  | Except.error _ => none

/-- A concrete environment-sourced configuration tree. -/
def sampleConfig : Config :=
  { path := none
    public := Public.from_env envNone
    server := Server.from_env envNone (str "run.sh")
    time := Time.from_env envNone
    motd := Motd.from_env envNone
    join := Join.from_env envNone
    lockout := Lockout.from_env envNone
    rcon := Rcon.from_env envNone
    advanced := Advanced.from_env envNone
    config := ConfigConfig.from_env envNone }

/-- The same tree with a file provenance path, as after a file load. -/
def sampleConfigFile : Config :=
  { sampleConfig with path := some ⟨true, [str "srv", str "lazymc.toml"]⟩ }

/-- One malformed variable on top of the minimal environment leaves the
whole loaded tree identical to the minimal (all-defaults) tree. -/
abbrev isolatedDefault (k : String) (v : String) : Prop :=
  Config.load_from_env (envCmdWith k v) = Config.load_from_env envCmd

/-! ### Shared lemmas -/

/-- A character occurring in neither the two-character pattern nor the
replacement is preserved, occurrence for occurrence, by `replace2`: a
match consumes exactly the pattern's characters and inserts exactly the
replacement's. -/
theorem count_replace2 (a b x : Char) (rep : Str) (hxa : x ≠ a) (hxb : x ≠ b)
    (hxr : x ∉ rep) : ∀ s : Str, (replace2 a b rep s).count x = s.count x
  | [] => by simp [replace2]
  | [c] => by simp [replace2]
  | c :: d :: cs => by
    rw [replace2]
    by_cases h : c = a ∧ d = b
    · have hxc : x ≠ c := fun e => hxa (e.trans h.1)
      have hxd : x ≠ d := fun e => hxb (e.trans h.2)
      rw [if_pos h, List.count_append, count_replace2 a b x rep hxa hxb hxr cs,
        List.count_eq_zero.mpr hxr]
      simp [List.count_cons, hxc, hxd]
    · rw [if_neg h]
      simp [List.count_cons, count_replace2 a b x rep hxa hxb hxr (d :: cs)]

/-- With the start command present, the loaded join-strategy list is the
parsed, filtered strategy variable. -/
theorem methodsOf_load (env : Env) (cmd : Str) (h : env "LAZYMC_SERVER_COMMAND" = some cmd) :
    methodsOf (Config.load_from_env env) =
      some ((get_env_vec_string env "LAZYMC_JOIN_METHODS" [str "hold", str "kick"]).filterMap
        (fun s => (Method.from_str s).toOption)) := by
  simp [Config.load_from_env, h, methodsOf, Join.from_env]

/-! ### Claim C1 -/

/-- Claim C1 counterexample: with `LAZYMC_SERVER_ADDRESS` set to the
hostname-based value `example.com:1234`, the claim predicts a resolved
concrete IP combined with port 1234; the accessor instead performs no
lookup — the value is a plain parse failure — and falls back to the
documented default `127.0.0.1:25566`, whose port 25566 differs from the
given port 1234. -/
theorem c1_counterexample_hostname_not_resolved :
    envOnly "LAZYMC_SERVER_ADDRESS" "example.com:1234" "LAZYMC_SERVER_ADDRESS" =
      some (str "example.com:1234") ∧
    parseSocketAddr (str "example.com:1234") = none ∧
    get_env_socket_addr (envOnly "LAZYMC_SERVER_ADDRESS" "example.com:1234")
      "LAZYMC_SERVER_ADDRESS" (str "127.0.0.1:25566") =
      ⟨IpAddr.v4 127 0 0 1, 25566⟩ ∧
    (⟨IpAddr.v4 127 0 0 1, 25566⟩ : SocketAddr).port ≠ 1234 := by decide

/-- Claim C1 (amended): environment-sourced socket-address fields accept
only literal IP:port values; a set value whose host segment is not a
literal IPv4/IPv6 address is a parse failure that silently falls back to
the parsed documented default — no hostname lookup is performed — while
a literal value is returned as parsed and an unset variable also yields
the default, and the documented default `127.0.0.1:25566` parses to host
127.0.0.1 and port 25566 exactly. -/
theorem c1_amended_literal_only :
    (∀ (env : Env) (key : String) (d s : Str),
      env key = some s → parseSocketAddr s = none →
      get_env_socket_addr env key d =
        (parseSocketAddr d).getD ⟨IpAddr.v4 0 0 0 0, 0⟩) ∧
    (∀ (env : Env) (key : String) (d s : Str) (a : SocketAddr),
      env key = some s → parseSocketAddr s = some a →
      get_env_socket_addr env key d = a) ∧
    (∀ (env : Env) (key : String) (d : Str),
      env key = none →
      get_env_socket_addr env key d =
        (parseSocketAddr d).getD ⟨IpAddr.v4 0 0 0 0, 0⟩) ∧
    parseSocketAddr (str "127.0.0.1:25566") = some ⟨IpAddr.v4 127 0 0 1, 25566⟩ := by
  refine ⟨fun env key d s h1 h2 => ?_, fun env key d s a h1 h2 => ?_,
    fun env key d h1 => ?_, by decide⟩
  · simp [get_env_socket_addr, h1, h2]
  · simp [get_env_socket_addr, h1, h2]
  · simp [get_env_socket_addr, h1]

/-- Witness for the amended C1 at a concrete hostname-valued variable
and a concrete literal-valued variable. -/
theorem c1_amended_witness :
    get_env_socket_addr (envOnly "LAZYMC_JOIN_FORWARD_ADDRESS" "mc.example.org:25565")
      "LAZYMC_JOIN_FORWARD_ADDRESS" (str "127.0.0.1:25565") =
      (parseSocketAddr (str "127.0.0.1:25565")).getD ⟨IpAddr.v4 0 0 0 0, 0⟩ ∧
    get_env_socket_addr (envOnly "LAZYMC_PUBLIC_ADDRESS" "10.0.0.2:25565")
      "LAZYMC_PUBLIC_ADDRESS" (str "0.0.0.0:25565") = ⟨IpAddr.v4 10 0 0 2, 25565⟩ :=
  ⟨c1_amended_literal_only.1 _ "LAZYMC_JOIN_FORWARD_ADDRESS" _ (str "mc.example.org:25565")
      (by decide) (by decide),
   c1_amended_literal_only.2.1 _ "LAZYMC_PUBLIC_ADDRESS" _ (str "10.0.0.2:25565")
      ⟨IpAddr.v4 10 0 0 2, 25565⟩ (by decide) (by decide)⟩

/-! ### Claim C2 -/

/-- Claim C2: the escape decoder rewrites `\n`, `\r`, `\t` to newline,
carriage return and tab and `\\` to a single backslash with the
backslash rewrite last, so the literal input `a\\nb\\tc` decodes to a
value containing a newline and then `c` preceded by a tab, a literal
double backslash decodes to a single backslash, and no character
produced by an earlier substitution is processed again: newlines present
after the first rewrite (and likewise carriage returns after the second
and tabs after the third) pass through every later rewrite untouched,
occurrence for occurrence. -/
theorem c2_escape_decoding_order :
    process_escape_sequences (str "a\\\\nb\\\\tc") = str "a\\\nb\\\tc" ∧
    process_escape_sequences (str "\\\\") = str "\\" ∧
    process_escape_sequences (str "\\n") = str "\n" ∧
    process_escape_sequences (str "\\r") = str "\r" ∧
    process_escape_sequences (str "\\t") = str "\t" ∧
    (∀ s : Str,
      (process_escape_sequences s).count '\n' = (esc_n s).count '\n' ∧
      (process_escape_sequences s).count '\r' = (esc_r (esc_n s)).count '\r' ∧
      (process_escape_sequences s).count '\t' = (esc_t (esc_r (esc_n s))).count '\t') := by
  refine ⟨by decide, by decide, by decide, by decide, by decide, fun s => ⟨?_, ?_, ?_⟩⟩
  · show (esc_bs (esc_t (esc_r (esc_n s)))).count '\n' = _
    rw [esc_bs, count_replace2 _ _ _ _ (by decide) (by decide) (by decide),
      esc_t, count_replace2 _ _ _ _ (by decide) (by decide) (by decide),
      esc_r, count_replace2 _ _ _ _ (by decide) (by decide) (by decide)]
  · show (esc_bs (esc_t (esc_r (esc_n s)))).count '\r' = _
    rw [esc_bs, count_replace2 _ _ _ _ (by decide) (by decide) (by decide),
      esc_t, count_replace2 _ _ _ _ (by decide) (by decide) (by decide)]
  · show (esc_bs (esc_t (esc_r (esc_n s)))).count '\t' = _
    rw [esc_bs, count_replace2 _ _ _ _ (by decide) (by decide) (by decide)]

/-! ### Claim C3 -/

/-- Claim C3 counterexample: the claim requires the start command to be
present as a *non-empty* value, but an environment in which
`LAZYMC_SERVER_COMMAND` is set to the empty string loads successfully
and yields the empty command — emptiness is never checked. -/
theorem c3_counterexample_empty_command_accepted :
    envOnly "LAZYMC_SERVER_COMMAND" "" "LAZYMC_SERVER_COMMAND" = some (str "") ∧
    loadedOk (Config.load_from_env (envOnly "LAZYMC_SERVER_COMMAND" "")) = true ∧
    commandOf (Config.load_from_env (envOnly "LAZYMC_SERVER_COMMAND" "")) =
      some (str "") := by decide

/-- Claim C3 (amended): when loading from the environment the backend
start command variable must be present — if it is absent the loader
terminates fatally with an error naming the variable and no default is
substituted — while any present value, the empty string included, is
accepted verbatim as the command. -/
theorem c3_amended_absence_fatal (env : Env) :
    (env "LAZYMC_SERVER_COMMAND" = none →
      Config.load_from_env env =
        Except.error ⟨str "Missing required environment variable: LAZYMC_SERVER_COMMAND"⟩) ∧
    hasSub (str "LAZYMC_SERVER_COMMAND")
      (str "Missing required environment variable: LAZYMC_SERVER_COMMAND") = true ∧
    (∀ cmd, env "LAZYMC_SERVER_COMMAND" = some cmd →
      loadedOk (Config.load_from_env env) = true ∧
      commandOf (Config.load_from_env env) = some cmd) := by
  refine ⟨fun h => ?_, by decide, fun cmd h => ?_⟩
  · simp [Config.load_from_env, h]
  · simp [Config.load_from_env, h, loadedOk, commandOf, Server.from_env]

/-- Witness for the amended C3: the empty environment is fatal with the
variable-naming message; a set command is taken verbatim. -/
theorem c3_amended_witness :
    Config.load_from_env envNone =
      Except.error ⟨str "Missing required environment variable: LAZYMC_SERVER_COMMAND"⟩ ∧
    commandOf (Config.load_from_env (envOnly "LAZYMC_SERVER_COMMAND" "run.sh")) =
      some (str "run.sh") :=
  ⟨(c3_amended_absence_fatal envNone).1 rfl,
   ((c3_amended_absence_fatal (envOnly "LAZYMC_SERVER_COMMAND" "run.sh")).2.2
      (str "run.sh") (by decide)).2⟩

/-! ### Claim C10 -/

/-- Claim C10: when a text variable is absent, the string accessor runs
the escape decoder over the caller-supplied default before returning it,
so a default containing a literal backslash-escape sequence comes back
substituted, not literal. -/
theorem c10_default_escape_processed (env : Env) (key : String) (d : Str)
    (h : env key = none) :
    get_env_string env key (some d) = some (process_escape_sequences d) := by
  simp [get_env_string, h]

/-- Witness for C10: an unset variable with a default containing `\n`
returns the default with a real newline. -/
theorem c10_witness :
    get_env_string envNone "LAZYMC_MOTD_SLEEPING" (some (str "zzz\\nwake me")) =
      some (str "zzz\nwake me") :=
  (c10_default_escape_processed envNone "LAZYMC_MOTD_SLEEPING" (str "zzz\\nwake me")
    rfl).trans (by decide)

/-! ### Claim C4 -/

/-- Claim C4: the version check has exactly four outcomes, none of which
is a load failure — no declared version warns unknown, a parsing but
older-than-`0.2.8` version warns older, an unparsable version warns
invalid, and a parsing version at least the minimum produces no warning —
with `0.2.7` warning older and `0.2.9` silent under ordinal
dotted-numeric comparison. -/
theorem c4_version_check_outcomes :
    check_config_version none = VersionCheck.warnUnknown ∧
    check_config_version (some (str "0.2.7")) = VersionCheck.warnOlder ∧
    check_config_version (some (str "0.2.9")) = VersionCheck.ok ∧
    check_config_version (some (str "not-a-version")) = VersionCheck.warnInvalid ∧
    (∀ v, check_config_version v = VersionCheck.warnUnknown ∨
      check_config_version v = VersionCheck.warnOlder ∨
      check_config_version v = VersionCheck.warnInvalid ∨
      check_config_version v = VersionCheck.ok) ∧
    (∀ v, parseVersion v = none →
      check_config_version (some v) = VersionCheck.warnInvalid) ∧
    (∀ v xs, parseVersion v = some xs → versionLt xs [0, 2, 8] = false →
      check_config_version (some v) = VersionCheck.ok) ∧
    (∀ v xs, parseVersion v = some xs → versionLt xs [0, 2, 8] = true →
      check_config_version (some v) = VersionCheck.warnOlder) := by
  have hmin : parseVersion CONFIG_VERSION = some [0, 2, 8] := by decide
  refine ⟨by decide, by decide, by decide, by decide, fun v => ?_, fun v h => ?_,
    fun v xs h hlt => ?_, fun v xs h hlt => ?_⟩
  · cases hv : check_config_version v <;> simp
  · simp [check_config_version, compare_to_ge, h]
  · simp [check_config_version, compare_to_ge, h, hmin, hlt]
  · simp [check_config_version, compare_to_ge, h, hmin, hlt]

/-- Witness for C4's conditional parts at concrete versions. -/
theorem c4_witness :
    check_config_version (some (str "0.2.8.1")) = VersionCheck.ok ∧
    check_config_version (some (str "0.2")) = VersionCheck.warnOlder ∧
    check_config_version (some (str "v1")) = VersionCheck.warnInvalid :=
  ⟨c4_version_check_outcomes.2.2.2.2.2.2.1 (str "0.2.8.1") [0, 2, 8, 1] (by decide) (by decide),
   c4_version_check_outcomes.2.2.2.2.2.2.2 (str "0.2") [0, 2] (by decide) (by decide),
   c4_version_check_outcomes.2.2.2.2.2.1 (str "v1") (by decide)⟩

/-! ### Claim C5 -/

/-- Claim C5: the backend working directory is the stored (declared or
default `.`) directory joined onto the parent of the provenance path for
a file-sourced tree, and the stored directory as-is for an
environment-sourced tree (no provenance); the resolution is a pure
function of the tree — no filesystem existence check exists. -/
theorem c5_server_directory_resolution (cfg : Config) :
    (cfg.path = none → Server.server_directory cfg = cfg.server.directory) ∧
    (∀ p par, cfg.path = some p → RPath.parent p = some par →
      Server.server_directory cfg = cfg.server.directory.map (fun d => par.join d)) := by
  refine ⟨fun h => ?_, fun p par hp hpar => ?_⟩
  · simp [Server.server_directory, h]
  · simp [Server.server_directory, hp, hpar]

/-- Witness for C5 at a concrete environment-sourced tree and a concrete
file-sourced tree. -/
theorem c5_witness :
    sampleConfig.path = none ∧
    Server.server_directory sampleConfig = sampleConfig.server.directory ∧
    sampleConfigFile.path = some ⟨true, [str "srv", str "lazymc.toml"]⟩ ∧
    RPath.parent ⟨true, [str "srv", str "lazymc.toml"]⟩ = some ⟨true, [str "srv"]⟩ ∧
    Server.server_directory sampleConfigFile =
      sampleConfigFile.server.directory.map (fun d => RPath.join ⟨true, [str "srv"]⟩ d) :=
  ⟨rfl, (c5_server_directory_resolution sampleConfig).1 rfl, rfl, by decide,
   (c5_server_directory_resolution sampleConfigFile).2 _ _ rfl (by decide)⟩

/-! ### Claim C6 -/

/-- Claim C6: a boolean variable whose lowercased value is one of
`true`, `1`, `yes`, `on` reads as true, one of `false`, `0`, `no`,
`off` reads as false, and any other value — like an unset variable —
yields the field's default; the accessor is total and never fails. -/
theorem c6_bool_synonyms (env : Env) (key : String) (d : Bool) :
    (∀ s, env key = some s →
      (rustToLower s ∈ [str "true", str "1", str "yes", str "on"] →
        get_env_bool env key d = true) ∧
      (rustToLower s ∈ [str "false", str "0", str "no", str "off"] →
        get_env_bool env key d = false) ∧
      (rustToLower s ∉ [str "true", str "1", str "yes", str "on"] →
        rustToLower s ∉ [str "false", str "0", str "no", str "off"] →
        get_env_bool env key d = d)) ∧
    (env key = none → get_env_bool env key d = d) := by
  refine ⟨fun s hs => ?_, fun h => by simp [get_env_bool, h]⟩
  simp only [get_env_bool, hs, parseBoolWord]
  refine ⟨fun hmem => ?_, fun hmem => ?_, fun h1 h2 => ?_⟩
  · simp only [List.mem_cons, List.not_mem_nil, or_false] at hmem
    rw [if_pos hmem]
  · simp only [List.mem_cons, List.not_mem_nil, or_false] at hmem
    rcases hmem with h | h | h | h <;> rw [h] <;>
      rw [if_neg (by decide), if_pos (by decide)]
  · simp only [List.mem_cons, List.not_mem_nil, or_false, not_or] at h1 h2
    rw [if_neg (by tauto), if_neg (by tauto)]

/-- Witness for C6 at concrete values of each kind. -/
theorem c6_witness :
    get_env_bool (envOnly "LAZYMC_SERVER_FORGE" "TRUE") "LAZYMC_SERVER_FORGE" false = true ∧
    get_env_bool (envOnly "LAZYMC_SERVER_FREEZE_PROCESS" "oFF")
      "LAZYMC_SERVER_FREEZE_PROCESS" true = false ∧
    get_env_bool (envOnly "LAZYMC_LOCKOUT_ENABLED" "banana") "LAZYMC_LOCKOUT_ENABLED" true =
      true ∧
    get_env_bool envNone "LAZYMC_MOTD_FROM_SERVER" false = false :=
  ⟨((c6_bool_synonyms (envOnly "LAZYMC_SERVER_FORGE" "TRUE") "LAZYMC_SERVER_FORGE" false).1
      (str "TRUE") (by decide)).1 (by decide),
   ((c6_bool_synonyms (envOnly "LAZYMC_SERVER_FREEZE_PROCESS" "oFF")
      "LAZYMC_SERVER_FREEZE_PROCESS" true).1 (str "oFF") (by decide)).2.1 (by decide),
   ((c6_bool_synonyms (envOnly "LAZYMC_LOCKOUT_ENABLED" "banana") "LAZYMC_LOCKOUT_ENABLED"
      true).1 (str "banana") (by decide)).2.2 (by decide) (by decide),
   (c6_bool_synonyms envNone "LAZYMC_MOTD_FROM_SERVER" false).2 rfl⟩

/-! ### Claim C7 -/

/-- Claim C7: loading from an environment in which only the required
start command is set (to `java -jar server.jar`) yields a complete tree
whose backend directory is `.`, backend address `127.0.0.1:25566`,
idle-sleep threshold `60`, and join strategies `[hold, kick]` in that
order. -/
theorem c7_end_to_end_env_defaults :
    loadedOk (Config.load_from_env env7) = true ∧
    (Config.load_from_env env7).map (fun c =>
      (c.server.directory, c.server.address, c.time.sleep_after, c.join.methods)) =
    Except.ok (some (RPath.ofStr (str ".")), ⟨IpAddr.v4 127 0 0 1, 25566⟩, 60,
      [Method.hold, Method.kick]) := by decide

/-! ### Claim C8 -/

/-- Claim C8: whatever value the join-methods variable holds, loading
succeeds and yields a valid tree; entries outside the enumeration
{kick, hold, forward, lobby} are filtered out rather than failing, an
all-invalid value such as `bogus` leaves an empty — still accepted —
strategy list, and a mixed value such as `hold, bogus ,kick` keeps only
its valid entries. -/
theorem c8_join_methods_filtered (cmd s : Str) :
    loadedOk (Config.load_from_env (envJoin cmd s)) = true ∧
    (∀ ms m, methodsOf (Config.load_from_env (envJoin cmd s)) = some ms → m ∈ ms →
      m ∈ [Method.kick, Method.hold, Method.forward, Method.lobby]) ∧
    methodsOf (Config.load_from_env (envJoin cmd (str "bogus"))) = some [] ∧
    methodsOf (Config.load_from_env (envJoin cmd (str "hold, bogus ,kick"))) =
      some [Method.hold, Method.kick] := by
  have hcmd : ∀ v, envJoin cmd v "LAZYMC_SERVER_COMMAND" = some cmd := fun v => by
    simp [envJoin]
  have hmeth : ∀ v, envJoin cmd v "LAZYMC_JOIN_METHODS" = some v := fun v => by
    simp [envJoin]
  refine ⟨?_, fun ms m _ hm => by cases m <;> simp, ?_, ?_⟩
  · simp [Config.load_from_env, hcmd s, loadedOk]
  · rw [methodsOf_load _ cmd (hcmd _)]
    simp only [get_env_vec_string, hmeth]
    decide
  · rw [methodsOf_load _ cmd (hcmd _)]
    simp only [get_env_vec_string, hmeth]
    decide

/-- Witness for C8 at concrete strategy values. -/
theorem c8_witness :
    Method.hold ∈ [Method.kick, Method.hold, Method.forward, Method.lobby] ∧
    methodsOf (Config.load_from_env (envJoin (str "x") (str "bogus"))) = some [] :=
  ⟨(c8_join_methods_filtered (str "x") (str "hold")).2.1 [Method.hold] Method.hold
      (by decide) (by decide),
   (c8_join_methods_filtered (str "x") (str "unused")).2.2.1⟩

/-! ### Claim C9 -/

/-- Claim C9 counterexample: setting only the join-methods variable to
the malformed value `bogus` (with the required command present) yields a
tree whose strategy list is `[]`, not the documented default
`[hold, kick]` that the unset variable yields — so the malformed-value
default substitution claimed for every field fails for this field. -/
theorem c9_counterexample_methods_not_defaulted :
    methodsOf (Config.load_from_env (envCmdWith "LAZYMC_JOIN_METHODS" "bogus")) =
      some [] ∧
    methodsOf (Config.load_from_env envCmd) = some [Method.hold, Method.kick] ∧
    some ([] : List Method) ≠ some [Method.hold, Method.kick] := by decide

/-- Claim C9 (amended): for every boolean, integer and socket-address
field, setting only that field's variable to a malformed value (with the
required command also set, since without it no tree is produced) yields
the identical tree to leaving it unset — that field and every other
field hold their defaults; the list-valued join-methods field is the
exception: a malformed value there yields the list of its valid entries
(here empty) instead of the default list, all other fields untouched. -/
theorem c9_amended_malformed_isolation :
    isolatedDefault "LAZYMC_PUBLIC_ADDRESS" "not-an-address" ∧
    isolatedDefault "LAZYMC_PUBLIC_PROTOCOL" "ninety" ∧
    isolatedDefault "LAZYMC_SERVER_ADDRESS" "not-an-address" ∧
    isolatedDefault "LAZYMC_SERVER_FREEZE_PROCESS" "maybe" ∧
    isolatedDefault "LAZYMC_SERVER_WAKE_ON_START" "maybe" ∧
    isolatedDefault "LAZYMC_SERVER_WAKE_ON_CRASH" "maybe" ∧
    isolatedDefault "LAZYMC_SERVER_PROBE_ON_START" "maybe" ∧
    isolatedDefault "LAZYMC_SERVER_FORGE" "maybe" ∧
    isolatedDefault "LAZYMC_SERVER_START_TIMEOUT" "ninety" ∧
    isolatedDefault "LAZYMC_SERVER_STOP_TIMEOUT" "ninety" ∧
    isolatedDefault "LAZYMC_SERVER_WAKE_WHITELIST" "maybe" ∧
    isolatedDefault "LAZYMC_SERVER_BLOCK_BANNED_IPS" "maybe" ∧
    isolatedDefault "LAZYMC_SERVER_DROP_BANNED_IPS" "maybe" ∧
    isolatedDefault "LAZYMC_SERVER_SEND_PROXY_V2" "maybe" ∧
    isolatedDefault "LAZYMC_TIME_SLEEP_AFTER" "ninety" ∧
    isolatedDefault "LAZYMC_TIME_MIN_ONLINE_TIME" "ninety" ∧
    isolatedDefault "LAZYMC_MOTD_FROM_SERVER" "maybe" ∧
    isolatedDefault "LAZYMC_JOIN_HOLD_TIMEOUT" "ninety" ∧
    isolatedDefault "LAZYMC_JOIN_FORWARD_ADDRESS" "not-an-address" ∧
    isolatedDefault "LAZYMC_JOIN_FORWARD_SEND_PROXY_V2" "maybe" ∧
    isolatedDefault "LAZYMC_JOIN_LOBBY_TIMEOUT" "ninety" ∧
    isolatedDefault "LAZYMC_LOCKOUT_ENABLED" "maybe" ∧
    isolatedDefault "LAZYMC_RCON_ENABLED" "maybe" ∧
    isolatedDefault "LAZYMC_RCON_PORT" "ninety" ∧
    isolatedDefault "LAZYMC_RCON_RANDOMIZE_PASSWORD" "maybe" ∧
    isolatedDefault "LAZYMC_RCON_SEND_PROXY_V2" "maybe" ∧
    isolatedDefault "LAZYMC_ADVANCED_REWRITE_SERVER_PROPERTIES" "maybe" ∧
    Config.load_from_env (envCmdWith "LAZYMC_JOIN_METHODS" "bogus") =
      (Config.load_from_env envCmd).map
        (fun c => { c with join := { c.join with methods := [] } }) := by
  refine ⟨?_, ?_, ?_, ?_, ?_, ?_, ?_, ?_, ?_, ?_, ?_, ?_, ?_, ?_, ?_, ?_, ?_, ?_,
    ?_, ?_, ?_, ?_, ?_, ?_, ?_, ?_, ?_, ?_⟩ <;> decide

end Lazymc
